import Mathlib

/-!
Shallow embedding of `fantasy_football_multi_league.py` (fantasy-football-mcp).

Python JSON values are modelled by the inductive `J` (numbers as `Int`;
no claim checked here depends on fractional values).  Python strings are
modelled as `String` except where a claim is about slicing (`text[:200]`),
where `List Char` (the `.data` field) is used so that list lemmas apply.
Mutable module state (`YAHOO_ACCESS_TOKEN`, `os.environ`, `LEAGUES_CACHE`,
the response cache) is threaded explicitly; upstream HTTP behaviour is an
explicit parameter.  Exceptions are `Except` values.
-/

namespace FF

/-- Python/JSON values as produced by `response.json()`.
`none_` stands for Python `None` (JSON `null`). -/
inductive J where
  | none_ : J
  | bool (b : Bool) : J
  | num (n : Int) : J
  | str (s : String) : J
  | arr (xs : List J) : J
  | obj (fields : List (String × J)) : J
deriving Repr, Inhabited, BEq

namespace J

/-- Association-list lookup on an object fields (first binding wins,
matching Python dict semantics where keys are unique). -/
def lookup : List (String × J) → String → Option J
  | [], _ => none
  | (k, v) :: rest, key => if k = key then some v else lookup rest key

/-- Models `d.get(key)` on a value known to be a dict: `none` when absent.
Returns `none` as well when the value is not a dict (callers guard with
`isObj` where the Python code does an `isinstance` check). -/
def get? : J → String → Option J
  | obj fields, key => lookup fields key
  | _, _ => none

/-- Models `d.get(key, default)`. -/
def getD (j : J) (key : String) (default : J) : J :=
  (j.get? key).getD default

/-- Models `isinstance(x, dict)`. -/
def isObj : J → Bool
  | obj _ => true
  | _ => false

/-- Models `isinstance(x, list)`. -/
def isArr : J → Bool
  | arr _ => true
  | _ => false

/-- Models `key in d` (dict membership). -/
def hasKey (j : J) (key : String) : Bool :=
  (j.get? key).isSome

/-- Python truthiness of a JSON value. -/
def truthy : J → Bool
  | none_ => false
  | bool b => b
  | num n => n != 0
  | str s => s != ""
  | arr xs => !xs.isEmpty
  | obj fs => !fs.isEmpty

/-- Insert-or-overwrite for a Python dict modelled as an assoc list:
an existing key keeps its position, a new key is appended. -/
def insertKey : List (String × J) → String → J → List (String × J)
  | [], key, v => [(key, v)]
  | (k, w) :: rest, key, v =>
    if k = key then (k, v) :: rest else (k, w) :: insertKey rest key v

end J

/-- Python exceptions that the embedded code can raise. -/
inductive PyError where
  /-- Models `NameError: name <n> is not defined`. -/
  | nameError (n : String) : PyError
  /-- Models `TypeError` (e.g. assigning a non-string into `os.environ`,
  indexing a string with a string). -/
  | typeError : PyError
  /-- Models `KeyError` on a missing dict key accessed with `[...]`. -/
  | keyError (k : String) : PyError
  /-- Models `AttributeError` (e.g. `.get` on a non-dict). -/
  | attributeError : PyError
  /-- Models `IndexError` on an out-of-range list index. -/
  | indexError : PyError
  /-- Models `ValueError` (e.g. `int("abc")`). -/
  | valueError : PyError
deriving Repr, BEq, DecidableEq

/-- Truthiness of an optional environment string: Python
`not all([...])` treats `None` and `""` as falsy. -/
def strTruthy : Option String → Bool
  | none => false
  | some s => s ≠ ""

/-! ## `refresh_yahoo_token` (lines 96–153)

The function reads `YAHOO_CONSUMER_KEY`, `YAHOO_CONSUMER_SECRET` and
`YAHOO_REFRESH_TOKEN` from the environment, posts a form-encoded grant
exchange, and never lets an exception escape: the whole HTTP interaction
is wrapped in `try/except Exception` returning an error dict. -/

/-- The mutable process state touched by the embedded functions:
the module-global `YAHOO_ACCESS_TOKEN` (a Python value, so it can be
`None` after a refresh that returned no `access_token`), and the two
`os.environ` entries the code writes. -/
structure PState where
  globalAccessToken : J
  envAccessToken : Option String
  envRefreshToken : Option String
deriving Repr

/-- Behaviour of the token-exchange endpoint for one `refresh_yahoo_token`
call: either the `session.post`/`response.json()` interaction raises
(`exn`), or it yields a status, the parsed JSON body and the raw text. -/
inductive RefreshUpstream where
  | exn (msg : String) : RefreshUpstream
  | resp (status : Nat) (tokenData : J) (bodyText : List Char) : RefreshUpstream
deriving Repr

/-- The dict returned by `refresh_yahoo_token`, with the fields the code
actually sets.  `status` is the Python string stored under `"status"`.
`expiresIn` models the `"expires_in"` field (present only on success;
the derived float `"expires_in_hours"` is not modelled — no claim
depends on its value, only on the fact that computing it from a
non-numeric `expires_in` raises, which is modelled). -/
structure RefreshResult where
  status : String
  message : String
  expiresIn : Option Int := none
  details : Option (List Char) := none
deriving Repr

/-- Does Python `new_refresh_token != refresh_token` hold, where
`new_refresh_token` is a JSON value and `refresh_token` a string? -/
def jNeStr (j : J) (s : String) : Bool :=
  match j with
  | J.str t => t ≠ s
  | _ => true

/-- Embedding of `refresh_yahoo_token` (lines 96–153).
Arguments: the two consumer credentials from the environment, the
current process state (whose `envRefreshToken` is `os.getenv("YAHOO_REFRESH_TOKEN")`),
and the token endpoint behaviour.  Returns the result dict and the
updated state.  Every exception raised inside the `try` block (JSON body
not a dict, non-string `access_token` assigned into `os.environ`,
non-string rotated refresh token, non-numeric `expires_in`) is caught by
the `except Exception` handler, which returns an error dict — state
changes made before the raise point are kept, as in Python. -/
def refresh_yahoo_token (clientId clientSecret : Option String)
    (st : PState) (up : RefreshUpstream) : RefreshResult × PState :=
  -- `if not all([client_id, client_secret, refresh_token])`
  if ¬ (strTruthy clientId ∧ strTruthy clientSecret ∧ strTruthy st.envRefreshToken) then
    ({ status := "error", message := "Missing credentials in environment" }, st)
  else
    let rt := st.envRefreshToken.getD ""
    match up with
    | RefreshUpstream.exn msg =>
      ({ status := "error", message := "Error refreshing token: " ++ msg }, st)
    | RefreshUpstream.resp status tokenData bodyText =>
      if status = 200 then
        -- `token_data.get(...)` raises AttributeError unless the body is a dict
        if ¬ tokenData.isObj then
          ({ status := "error", message := "Error refreshing token: AttributeError" }, st)
        else
          let newAccessToken : Option J := tokenData.get? "access_token"
          let newRefreshToken : J := tokenData.getD "refresh_token" (J.str rt)
          let expiresIn : J := tokenData.getD "expires_in" (J.num 3600)
          -- `YAHOO_ACCESS_TOKEN = new_access_token` (global; always succeeds)
          let st1 := { st with globalAccessToken := newAccessToken.getD J.none_ }
          -- `os.environ["YAHOO_ACCESS_TOKEN"] = new_access_token`
          match newAccessToken with
          | some (J.str tok) =>
            let st2 := { st1 with envAccessToken := some tok }
            -- `if new_refresh_token != refresh_token: os.environ[...] = new_refresh_token`
            if jNeStr newRefreshToken rt then
              match newRefreshToken with
              | J.str nrt =>
                let st3 := { st2 with envRefreshToken := some nrt }
                match expiresIn with
                | J.num e =>
                  ({ status := "success", message := "Token refreshed successfully",
                     expiresIn := some e }, st3)
                | _ => ({ status := "error", message := "Error refreshing token: TypeError" }, st3)
              | _ =>
                -- non-string rotated token: the environ assignment raises TypeError
                ({ status := "error", message := "Error refreshing token: TypeError" }, st2)
            else
              match expiresIn with
              | J.num e =>
                ({ status := "success", message := "Token refreshed successfully",
                   expiresIn := some e }, st2)
              | _ => ({ status := "error", message := "Error refreshing token: TypeError" }, st2)
          | _ =>
            -- `None` or a non-string token assigned into `os.environ` raises TypeError
            ({ status := "error", message := "Error refreshing token: TypeError" }, st1)
      else
        ({ status := "error",
           message := "Failed to refresh token: " ++ toString status,
           details := some (bodyText.take 200) }, st)

/-! ## `yahoo_api_call` (lines 54–93)

The gateway composes the response cache, the rate limiter and the
credential refresher.  `rate_limiter` and `response_cache` live in
`src/yahoo_api_utils.py`, which is not part of this repository snapshot;
they are modelled from the spec at their interface (§4.1/§4.2): the
cache is a key → payload store (`get` = lookup, `set` = overwrite; TTL
expiry is elided because no claim here involves the passage of time),
and `acquire()` only delays, which is recorded as a trace event. -/

/-- The two exceptions `yahoo_api_call` can raise (lines 90 and 93):
auth failed and refresh failed, carrying the original body truncated to
200 characters; and any other non-200 status, carrying the numeric
status and the body truncated to 200 characters. -/
inductive YahooError where
  | authRefreshFailed (bodyExcerpt : List Char) : YahooError
  | upstream (status : Nat) (bodyExcerpt : List Char) : YahooError
deriving Repr

/-- One upstream HTTP response: status, parsed JSON body (read only when
the status is 200) and raw text (read on the failure paths). -/
structure Response where
  status : Nat
  json : J
  body : List Char
deriving Repr

/-- Observable actions of one logical gateway call, in order. -/
inductive Event where
  | cacheHit (endpoint : String) : Event
  | rateAcquire : Event
  | httpGet (n : Nat) (status : Nat) : Event
  | refreshAttempt : Event
  | cacheStore (endpoint : String) : Event
deriving Repr, BEq, DecidableEq

/-- Environment of a gateway call: the upstream response to the n-th
HTTP GET issued by this process, the token endpoint behaviour should a
refresh be attempted, and the consumer credentials in the environment. -/
structure GatewayEnv where
  responses : Nat → Response
  refreshUp : RefreshUpstream
  clientId : Option String
  clientSecret : Option String

/-- Mutable state threaded through a gateway call: the response cache
(modelled from the spec, see section header), the process state touched
by the refresher, and how many HTTP GETs have been issued so far. -/
structure GwState where
  cache : List (String × J)
  pstate : PState
  reqCount : Nat

/-- Embedding of `yahoo_api_call` (lines 54–93).  Returns the payload or
the raised exception, the updated state, and the trace of observable
events.  The `Authorization` header content is not modelled: the
upstream behaviour is already an explicit parameter.  The 401 branch
with `retry_on_auth_fail` set invokes the refresher and, on success,
retries recursively with `retry_on_auth_fail=False`. -/
def yahoo_api_call (env : GatewayEnv) (endpoint : String)
    (retryOnAuthFail useCache : Bool) (st : GwState) :
    Except YahooError J × GwState × List Event :=
  -- `if use_cache: cached = await response_cache.get(endpoint)`
  match (if useCache then J.lookup st.cache endpoint else none) with
  | some v => (Except.ok v, st, [Event.cacheHit endpoint])
  | none =>
    -- `await rate_limiter.acquire()` then `session.get(url)`
    let n := st.reqCount
    let resp := env.responses n
    let st1 : GwState := { st with reqCount := n + 1 }
    let pre : List Event := [Event.rateAcquire, Event.httpGet n resp.status]
    if resp.status = 200 then
      if useCache then
        (Except.ok resp.json,
         { st1 with cache := J.insertKey st1.cache endpoint resp.json },
         pre ++ [Event.cacheStore endpoint])
      else
        (Except.ok resp.json, st1, pre)
    else if h401 : resp.status = 401 ∧ retryOnAuthFail = true then
      let rr := refresh_yahoo_token env.clientId env.clientSecret st1.pstate env.refreshUp
      let st2 : GwState := { st1 with pstate := rr.2 }
      if rr.1.status = "success" then
        let retried := yahoo_api_call env endpoint false useCache st2
        (retried.1, retried.2.1, pre ++ [Event.refreshAttempt] ++ retried.2.2)
      else
        (Except.error (YahooError.authRefreshFailed (resp.body.take 200)), st2,
         pre ++ [Event.refreshAttempt])
    else
      (Except.error (YahooError.upstream resp.status (resp.body.take 200)), st1, pre)
termination_by cond retryOnAuthFail 1 0
decreasing_by simp [h401.2]

/-! ## Python evaluation helpers used by the payload-parsing functions

These model the exact raise behaviour of the subscript / `.get` /
iteration idioms the parsing code uses on arbitrary JSON values. -/

namespace J

/-- Models `x.get(key, default)` — requires `x` to be a dict, else `AttributeError`. -/
def pyGetAttr (j : J) (key : String) (default : J) : Except PyError J :=
  match j with
  | obj fs => Except.ok ((lookup fs key).getD default)
  | _ => Except.error PyError.attributeError

/-- Models `x[key]` with a string key: dict → lookup or `KeyError`; any other
shape (list, string, number, …) → `TypeError`. -/
def pySubscript (j : J) (key : String) : Except PyError J :=
  match j with
  | obj fs =>
    match lookup fs key with
    | some v => Except.ok v
    | none => Except.error (PyError.keyError key)
  | _ => Except.error PyError.typeError

/-- Models `len(x)` — defined for strings, lists and dicts, `TypeError` otherwise. -/
def pyLen : J → Except PyError Nat
  | str s => Except.ok s.length
  | arr xs => Except.ok xs.length
  | obj fs => Except.ok fs.length
  | _ => Except.error PyError.typeError

/-- Models `x[i]` with an integer index: list → element or `IndexError`; string
→ one-character string; dict → `KeyError` (JSON-derived dicts have only
string keys, so an integer key is never present); else `TypeError`. -/
def pyIndexNat (j : J) (i : Nat) : Except PyError J :=
  match j with
  | arr xs =>
    match xs.get? i with
    | some v => Except.ok v
    | none => Except.error PyError.indexError
  | str s =>
    match s.data.get? i with
    | some c => Except.ok (str (String.mk [c]))
    | none => Except.error PyError.indexError
  | obj _ => Except.error (PyError.keyError (toString i))
  | _ => Except.error PyError.typeError

/-- Boolean substring test on character lists (`needle in hay`). -/
def isInfixList (needle hay : List Char) : Bool :=
  (List.range (hay.length + 1)).any fun i => needle.isPrefixOf (hay.drop i)

/-- Models `key in x` for a string `key`: dict → key membership; list → does a
string equal to `key` occur; string → substring test; else `TypeError`. -/
def pyContains (j : J) (key : String) : Except PyError Bool :=
  match j with
  | obj fs => Except.ok (lookup fs key).isSome
  | arr xs => Except.ok (xs.any fun x => match x with | str s => s == key | _ => false)
  | str s => Except.ok (isInfixList key.data s.data)
  | _ => Except.error PyError.typeError

/-- Models the idiom `for key in x: ... x[key] ...` found in the parsing
loops: for a dict it yields the key/value pairs in order; iterating an
empty list or empty string runs the body zero times; any other shape
raises on iteration (non-iterables) or on the first element-used-as-
subscript (`TypeError`).  A list whose elements are integers would index
into itself in Python; such a payload cannot arise from parsed JSON sent
to these loops and is collapsed into `TypeError` here. -/
def pyDictItems : J → Except PyError (List (String × J))
  | obj fs => Except.ok fs
  | arr [] => Except.ok []
  | str "" => Except.ok []
  | _ => Except.error PyError.typeError

end J

/-- Models `int(s)` on a string: integral literals (with surrounding
whitespace) parse, anything else raises `ValueError`. -/
def pyInt (s : String) : Except PyError Int :=
  match s.trim.toInt? with
  | some n => Except.ok n
  | none => Except.error PyError.valueError

/-! ## `get_waiver_wire_players` (lines 291–356)

The whole body — upstream call included — sits in a
`try/except Exception: return []` (lines 355–356). -/

/-- The `player_info` dict assembled per player: a field is `none` when
the corresponding key was never assigned. -/
structure PlayerInfo where
  name : Option J := none
  player_key : Option J := none
  team : Option J := none
  position : Option J := none
  bye : Option J := none
  owned_pct : Option J := none
  weekly_change : Option J := none
  injury_status : Option J := none
  injury_detail : Option J := none
deriving Repr

/-- One iteration of the `for element in player_data` loop of
`get_waiver_wire_players` (lines 325–349).  Non-dict elements are
skipped; `element["name"]["full"]` and
`element["bye_weeks"].get("week", "N/A")` can raise. -/
def parse_waiver_element (info : PlayerInfo) (element : J) : Except PyError PlayerInfo := do
  match element with
  | J.obj _ => do
    let info ← if element.hasKey "name" then do
        let nv ← element.pySubscript "name"
        let full ← nv.pySubscript "full"
        pure { info with name := some full }
      else pure info
    let info := match element.get? "player_key" with
      | some v => { info with player_key := some v } | none => info
    let info := match element.get? "editorial_team_abbr" with
      | some v => { info with team := some v } | none => info
    let info := match element.get? "display_position" with
      | some v => { info with position := some v } | none => info
    let info ← if element.hasKey "bye_weeks" then do
        let bw ← element.pySubscript "bye_weeks"
        let week ← bw.pyGetAttr "week" (J.str "N/A")
        pure { info with bye := some week }
      else pure info
    let info ← if element.hasKey "ownership" then do
        let ow ← element.pySubscript "ownership"
        let op ← ow.pyGetAttr "ownership_percentage" (J.num 0)
        let wc ← ow.pyGetAttr "weekly_change" (J.num 0)
        pure { info with owned_pct := some op, weekly_change := some wc }
      else pure info
    let info := match element.get? "status" with
      | some v => { info with injury_status := some v } | none => info
    let info := match element.get? "status_full" with
      | some v => { info with injury_detail := some v } | none => info
    pure info
  | _ => pure info

/-- Models `if player_info.get("name"):` — the player is appended only when the
`name` field was set to a truthy value. -/
def nameTruthy (info : PlayerInfo) : Bool :=
  (info.name.map J.truthy).getD false

/-- The parse phase of `get_waiver_wire_players` (lines 306–354):
traverses `data["fantasy_content"]["league"][1]["players"]`, assembling
one `PlayerInfo` per player entry.  An exception anywhere aborts the
parse (the caller `except` then returns `[]`). -/
def parse_waiver_players (data : J) : Except PyError (List PlayerInfo) := do
  let fc ← data.pyGetAttr "fantasy_content" (J.obj [])
  let league ← fc.pyGetAttr "league" (J.arr [])
  let len ← league.pyLen
  let cond ← if 1 < len then do
      let l1 ← league.pyIndexNat 1
      pure (l1.isObj && l1.hasKey "players")
    else pure false
  if cond then do
    let l1 ← league.pyIndexNat 1
    let playersData ← l1.pySubscript "players"
    let items ← playersData.pyDictItems
    items.foldlM (fun acc kv => do
      if (kv.1 != "count") && kv.2.isObj then
        if kv.2.hasKey "player" then do
          let playerArray ← kv.2.pySubscript "player"
          match playerArray with
          | J.arr (pd :: _) =>
            match pd with
            | J.arr elements => do
              let info ← elements.foldlM parse_waiver_element {}
              if nameTruthy info then pure (acc ++ [info]) else pure acc
            | _ => pure acc
          | _ => pure acc
        else pure acc
      else pure acc) []
  else pure []

/-- Embedding of `get_waiver_wire_players` (lines 291–356).  The filter
arguments only shape the endpoint string (see `waiver_endpoint`), not
the parse, so the upstream outcome for that endpoint is the argument.
Faithful to lines 355–356: every exception — upstream failure or parse
failure — is swallowed and `[]` is returned. -/
def get_waiver_wire_players (apiResult : Except YahooError J) : List PlayerInfo :=
  match apiResult with
  | Except.error _ => []
  | Except.ok data =>
    match parse_waiver_players data with
    | Except.ok ps => ps
    | Except.error _ => []

/-- The sort-type mapping of `get_waiver_wire_players` (lines 296–301). -/
def waiver_sort_type (sort : String) : String :=
  (J.lookup
    [("rank", J.str "OR"), ("points", J.str "PTS"),
     ("owned", J.str "O"), ("trending", J.str "A")] sort).elim "OR"
    fun j => match j with | J.str s => s | _ => "OR"

/-- The endpoint string built by `get_waiver_wire_players` (line 303). -/
def waiver_endpoint (league_key position sort : String) (count : Int) : String :=
  "league/" ++ league_key ++ "/players;status=A"
    ++ (if position != "all" then ";position=" ++ position else "")
    ++ ";sort=" ++ waiver_sort_type sort ++ ";count=" ++ toString count

/-! ## `get_draft_rankings` (lines 359–426)

Same `try/except Exception: return []` shape (lines 425–426).  The
embedding models the path where a `league_key` is supplied (when it is
absent the code first consults `discover_leagues`). -/

/-- The `player_info` dict assembled per ranked player. -/
structure DraftPlayerInfo where
  name : Option J := none
  team : Option J := none
  position : Option J := none
  bye : Option J := none
  average_draft_position : Option J := none
  average_round : Option J := none
  average_cost : Option J := none
  percent_drafted : Option J := none
  rank : Option J := none
deriving Repr

/-- One iteration of the `for element in player_data` loop of
`get_draft_rankings` (lines 396–416). -/
def parse_draft_element (rank : Int) (info : DraftPlayerInfo) (element : J) :
    Except PyError DraftPlayerInfo := do
  match element with
  | J.obj _ => do
    let info ← if element.hasKey "name" then do
        let nv ← element.pySubscript "name"
        let full ← nv.pySubscript "full"
        pure { info with name := some full }
      else pure info
    let info := match element.get? "editorial_team_abbr" with
      | some v => { info with team := some v } | none => info
    let info := match element.get? "display_position" with
      | some v => { info with position := some v } | none => info
    let info ← if element.hasKey "bye_weeks" then do
        let bw ← element.pySubscript "bye_weeks"
        let week ← bw.pyGetAttr "week" (J.str "N/A")
        pure { info with bye := some week }
      else pure info
    if element.hasKey "draft_analysis" then do
      let draft ← element.pySubscript "draft_analysis"
      let adp ← draft.pyGetAttr "average_pick" (J.num rank)
      let ar ← draft.pyGetAttr "average_round" (J.str "N/A")
      let ac ← draft.pyGetAttr "average_cost" (J.str "N/A")
      let pd ← draft.pyGetAttr "percent_drafted" (J.num 0)
      pure { info with average_draft_position := some adp, average_round := some ar,
                       average_cost := some ac, percent_drafted := some pd }
    else
      pure { info with rank := some (J.num rank) }
  | _ => pure info

/-- The sort key of line 422:
`float(x.get("average_draft_position", 999)) if x.get(...) != "N/A" else 999`.
JSON numbers are modelled as integers throughout this file, so
`float(...)` of a numeric string is modelled for integral literals; a
fractional literal would only change the ordering, which no claim here
depends on. -/
def draft_sort_key (p : DraftPlayerInfo) : Except PyError Int :=
  match p.average_draft_position with
  | none => Except.ok 999
  | some (J.str s) =>
    if s = "N/A" then Except.ok 999
    else match s.trim.toInt? with
      | some n => Except.ok n
      | none => Except.error PyError.valueError
  | some (J.num n) => Except.ok n
  | some (J.bool b) => Except.ok (cond b 1 0)
  | some _ => Except.error PyError.typeError

/-- Stable insertion of `x` into a sorted list: `x` lands after every
element `y` with `le y x`, so equal keys keep their original order. -/
def stableInsert (le : α → α → Bool) (x : α) : List α → List α
  | [] => [x]
  | y :: ys => if le y x then y :: stableInsert le x ys else x :: y :: ys

/-- Stable sort (insertion sort), modelling the Python stable
`list.sort`. -/
def stableSort (le : α → α → Bool) (l : List α) : List α :=
  l.foldl (fun acc x => stableInsert le x acc) []

/-- The parse-and-sort phase of `get_draft_rankings` (lines 376–422). -/
def parse_draft_rankings (data : J) : Except PyError (List DraftPlayerInfo) := do
  let fc ← data.pyGetAttr "fantasy_content" (J.obj [])
  let league ← fc.pyGetAttr "league" (J.arr [])
  let len ← league.pyLen
  let cond ← if 1 < len then do
      let l1 ← league.pyIndexNat 1
      pure (l1.isObj && l1.hasKey "players")
    else pure false
  let players ← if cond then do
      let l1 ← league.pyIndexNat 1
      let playersData ← l1.pySubscript "players"
      let items ← playersData.pyDictItems
      items.foldlM (fun acc kv => do
        if (kv.1 != "count") && kv.2.isObj then
          if kv.2.hasKey "player" then do
            let playerArray ← kv.2.pySubscript "player"
            match playerArray with
            | J.arr (pd :: _) =>
              match pd with
              | J.arr elements => do
                let rank ← pyInt kv.1      -- `rank = int(key) + 1`
                let info ← elements.foldlM (parse_draft_element (rank + 1)) {}
                if (info.name.map J.truthy).getD false then pure (acc ++ [info])
                else pure acc
              | _ => pure acc
            | _ => pure acc
          else pure acc
        else pure acc) []
    else pure ([] : List DraftPlayerInfo)
  -- `players.sort(key=...)` — stable sort on the computed key
  let keyed ← players.mapM fun p => do
    let k ← draft_sort_key p
    pure (k, p)
  pure ((stableSort (fun a b => decide (a.1 ≤ b.1)) keyed).map (·.2))

/-- Embedding of `get_draft_rankings` (lines 359–426), league key
supplied.  Faithful to lines 425–426: any exception yields `[]`. -/
def get_draft_rankings (apiResult : Except YahooError J) : List DraftPlayerInfo :=
  match apiResult with
  | Except.error _ => []
  | Except.ok data =>
    match parse_draft_rankings data with
    | Except.ok ps => ps
    | Except.error _ => []

/-! ## `discover_leagues` (lines 156–207)

`LEAGUES_CACHE` is a module-global dict.  The function returns it when
it is truthy (non-empty); otherwise it fetches, parses inside a
`try/except: pass` (so a mid-parse exception keeps the leagues inserted
so far), assigns the result — empty or not — to `LEAGUES_CACHE`, and
returns it. -/

/-- The per-league dict built at lines 193–202. -/
structure LeagueInfo where
  key : J
  id : J
  name : J
  season : J
  num_teams : J
  scoring_type : J
  current_week : J
  is_finished : J
deriving Repr, BEq

/-- Models `leagues[league_key] = {...}`: dict insert-or-overwrite with a JSON
key, first insertion fixing the position. -/
def insertLeague : List (J × LeagueInfo) → J → LeagueInfo → List (J × LeagueInfo)
  | [], k, v => [(k, v)]
  | (k', v') :: rest, k, v =>
    if k' == k then (k', v) :: rest else (k', v') :: insertLeague rest k v

/-- Lines 192–202: the fields read from `league_dict` (a dict, checked
by the caller) with their defaults. -/
def mkLeagueInfo (league_dict : J) : LeagueInfo :=
  { key := league_dict.getD "league_key" (J.str "")
    id := league_dict.getD "league_id" (J.str "")
    name := league_dict.getD "name" (J.str "Unknown")
    season := league_dict.getD "season" (J.num 2025)
    num_teams := league_dict.getD "num_teams" (J.num 0)
    scoring_type := league_dict.getD "scoring_type" (J.str "head")
    current_week := league_dict.getD "current_week" (J.num 1)
    is_finished := league_dict.getD "is_finished" (J.num 0) }

/-- In this section the `Except` error also carries the leagues
accumulated before the exception, because `except: pass` keeps them. -/
abbrev LeaguesAcc := List (J × LeagueInfo)

/-- One iteration of the `for key in league_data` loop (lines 185–202). -/
def parseLeagueEntry (acc : LeaguesAcc) (kv : String × J) :
    Except LeaguesAcc LeaguesAcc :=
  if (kv.1 != "count") && kv.2.isObj then
    match kv.2.get? "league" with
    | some (J.arr (league_dict :: _)) =>
      match league_dict with
      | J.obj _ =>
        Except.ok (insertLeague acc (league_dict.getD "league_key" (J.str ""))
          (mkLeagueInfo league_dict))
      | _ => Except.error acc  -- `league_dict.get(...)` on a non-dict: AttributeError
    | _ => Except.ok acc
  else Except.ok acc

/-- One iteration of the `for g in game` loop (lines 181–202). -/
def parseGameEntry (acc : LeaguesAcc) (g : J) : Except LeaguesAcc LeaguesAcc :=
  match g with
  | J.obj _ =>
    match g.get? "leagues" with
    | some league_data =>
      match league_data.pyDictItems with
      | Except.error _ => Except.error acc
      | Except.ok items => items.foldlM parseLeagueEntry acc
    | none => Except.ok acc
  | _ => Except.ok acc

/-- One iteration of the `for item in user` loop (lines 174–202). -/
def parseUserItem (acc : LeaguesAcc) (item : J) : Except LeaguesAcc LeaguesAcc :=
  match item with
  | J.obj _ =>
    match item.get? "games" with
    | some games =>
      -- `if "0" in games:` then `game = games["0"]["game"]`
      match games.pyContains "0" with
      | Except.error _ => Except.error acc
      | Except.ok false => Except.ok acc
      | Except.ok true =>
        match games.pySubscript "0" with
        | Except.error _ => Except.error acc
        | Except.ok g0 =>
          match g0.pySubscript "game" with
          | Except.error _ => Except.error acc
          | Except.ok game =>
            match game with
            | J.arr gs => gs.foldlM parseGameEntry acc
            | _ => Except.ok acc
    | none => Except.ok acc
  | _ => Except.ok acc

/-- The `try` block of `discover_leagues` (lines 167–204): traverses
`data["fantasy_content"]["users"]["0"]["user"][…]["games"]["0"]["game"][…]["leagues"]`.
A raised exception keeps the leagues accumulated so far (`except: pass`). -/
def discover_leagues_parse (data : J) : LeaguesAcc :=
  let r : Except LeaguesAcc LeaguesAcc :=
    match data.pyGetAttr "fantasy_content" (J.obj []) with
    | Except.error _ => Except.error []
    | Except.ok fc =>
      match fc.pyGetAttr "users" (J.obj []) with
      | Except.error _ => Except.error []
      | Except.ok users =>
        match users.pyContains "0" with
        | Except.error _ => Except.error []
        | Except.ok false => Except.ok []
        | Except.ok true =>
          match users.pySubscript "0" with
          | Except.error _ => Except.error []
          | Except.ok u0 =>
            match u0.pySubscript "user" with
            | Except.error _ => Except.error []
            | Except.ok user =>
              match user with
              | J.arr items => items.foldlM parseUserItem []
              | _ => Except.ok []
  match r with
  | Except.ok l => l
  | Except.error l => l

/-- Embedding of `discover_leagues` (lines 156–207).  The state is the
module-global `LEAGUES_CACHE`; the upstream argument is the outcome of
the `yahoo_api_call` at line 164 (an `Except.error` models that call
raising, which propagates — only the parse is inside the `try`).
Returns (result, new cache, whether an upstream fetch was issued). -/
def discover_leagues (cache : LeaguesAcc) (upstream : Except YahooError J) :
    Except YahooError LeaguesAcc × LeaguesAcc × Bool :=
  -- `if LEAGUES_CACHE: return LEAGUES_CACHE` (dict truthiness = non-empty)
  if ¬ cache.isEmpty then
    (Except.ok cache, cache, false)
  else
    match upstream with
    | Except.error e => (Except.error e, cache, true)
    | Except.ok data =>
      let leagues := discover_leagues_parse data
      (Except.ok leagues, leagues, true)

/-! ## Module-scope name environment

`ff_get_standings` (line 668) reads the name `data` after line 665
assigned the response to the misspelled name `ata`; `ff_get_waiver_wire`
(line 1120) reads the name `arguments`.  Whether these lookups succeed
is decided by Python name resolution: local scope, then module scope,
then builtins.  The module top-level bindings are transcribed below;
neither `data` nor `arguments` is among them (nor are they builtins). -/

/-- Every name bound at module scope in
`fantasy_football_multi_league.py`: imports (lines 7–30), configuration
globals (lines 35–51), and the module functions and tools. -/
def moduleTopLevelNames : List String :=
  ["argparse", "asyncio", "json", "os", "Any", "Dict", "List", "Optional",
   "Annotated", "Literal", "Field", "datetime", "aiohttp", "load_dotenv",
   "FastMCP", "ToolError", "praw", "TextBlob", "REDDIT_AVAILABLE",
   "rate_limiter", "response_cache", "DRAFT_AVAILABLE", "YAHOO_ACCESS_TOKEN",
   "YAHOO_API_BASE", "REDDIT_CLIENT_ID", "REDDIT_CLIENT_SECRET",
   "REDDIT_USERNAME", "app", "LEAGUES_CACHE", "yahoo_api_call",
   "refresh_yahoo_token", "discover_leagues", "get_user_team_info",
   "get_user_team_key", "get_waiver_wire_players", "get_draft_rankings",
   "get_all_teams_info", "analyze_reddit_sentiment", "ff_get_leagues",
   "ff_get_league_info", "ff_get_standings", "ff_get_roster",
   "ff_get_matchup", "ff_get_players", "ff_get_optimal_lineup",
   "ff_refresh_token", "ff_get_draft_results", "ff_get_waiver_wire",
   "ff_get_api_status", "ff_clear_cache", "ff_get_draft_rankings",
   "ff_get_opponent_roster_comparison", "ff_get_all_teams",
   "ff_get_draft_recommendation", "ff_analyze_draft_state",
   "ff_analyze_reddit_sentiment", "ff_get_opponent_roster", "main"]

/-- Does `n` resolve at a program point with the given function-local
names in scope?  (Neither `data` nor `arguments` is a Python builtin.) -/
def resolvesName (localNames : List String) (n : String) : Bool :=
  localNames.contains n || moduleTopLevelNames.contains n

/-- The local names bound in `ff_get_standings` when line 668 executes:
the parameter and the misspelled binding from line 665. -/
def standingsLocalNames : List String := ["league_key", "ata"]

/-- The local names bound in `ff_get_waiver_wire` when line 1120
executes: the function parameters. -/
def waiverWireLocalNames : List String := ["league_key", "position", "sort", "count"]

/-! ## `ff_get_standings` (lines 660–825) -/

/-- Embedding of `ff_get_standings`.  Line 665 (`ata = await
yahoo_api_call(...)`) binds the response to `ata`; line 668 reads the
unbound name `data` (see `standingsLocalNames` / `moduleTopLevelNames`),
so execution raises `NameError` for the name `data` before any
of the standings parsing, the deep-scan fallback or the placeholder
reconstruction (lines 668–816) can run.  When the upstream call itself
raises, that exception propagates first. -/
def ff_get_standings (apiResult : Except YahooError J) : Except (YahooError ⊕ PyError) J :=
  match apiResult with
  | Except.error e => Except.error (Sum.inl e)
  | Except.ok _ata => Except.error (Sum.inr (PyError.nameError "data"))

/-! ## `ff_get_roster` (lines 827–901) -/

/-- The dict returned by `get_user_team_info` (lines 272–277).  Values
are JSON values (`J.none_` models Python `None` for a missing draft
grade/position). -/
structure TeamInfo where
  team_key : J
  team_name : J
  draft_grade : J
  draft_position : J
deriving Repr

/-- A `player_info` dict of the roster parse (lines 854–890). -/
structure RosterPlayer where
  name : Option J := none
  position : Option J := none
  status : Option J := none
deriving Repr

/-- Python `a or b`. -/
def pyOr (a b : J) : J := if a.truthy then a else b

/-- Models `for x in j` where the loop body only inspects `x` behind
`isinstance(x, dict)` checks: a list yields its elements, a dict its
keys (as strings), a string its characters; else `TypeError`. -/
def J.pyIterItems : J → Except PyError (List J)
  | J.arr xs => Except.ok xs
  | J.obj fs => Except.ok (fs.map fun kv => J.str kv.1)
  | J.str s => Except.ok (s.data.map fun c => J.str (String.mk [c]))
  | _ => Except.error PyError.typeError

/-- Lines 860–887: one element of `player_data`. -/
def parse_roster_element (info : RosterPlayer) (element : J) : RosterPlayer :=
  match element with
  | J.obj _ =>
    let info := match element.get? "name" with
      | some (J.obj fs) =>
        { info with name := some (pyOr ((J.lookup fs "full").getD J.none_)
            ((J.lookup fs "first").getD J.none_)) }
      | some (J.str s) => { info with name := some (J.str s) }
      | _ => info
    let info := match element.get? "selected_position" with
      | some (J.arr (sel0 :: _)) =>
        match sel0 with
        | J.obj fs =>
          { info with position := some (pyOr ((J.lookup fs "position").getD J.none_)
              ((J.lookup fs "position_type").getD J.none_)) }
        | other => { info with position := some (J.str (reprStr other)) }  -- `str(sel[0])`
      | some (J.obj fs) =>
        { info with position := some (pyOr ((J.lookup fs "position").getD J.none_)
            ((J.lookup fs "position_type").getD J.none_)) }
      | _ =>
        match element.get? "display_position" with
        | some v => { info with position := some v }
        | none =>
          match element.get? "position" with
          | some v => { info with position := some v }
          | none => info
    match element.get? "status" with
    | some v => { info with status := some v }
    | none =>
      match element.get? "status_full" with
      | some v => { info with status := some v }
      | none => info
  | _ => info

/-- The roster-extraction loop of `ff_get_roster` (lines 839–890). -/
def parse_roster (data : J) : Except PyError (List RosterPlayer) := do
  let fc ← data.pyGetAttr "fantasy_content" (J.obj [])
  let team ← fc.pyGetAttr "team" (J.arr [])
  let items ← team.pyIterItems
  items.foldlM (fun acc item => do
    match item with
    | J.obj _ =>
      match item.get? "roster" with
      | some rosterData => do
        let has0 ← rosterData.pyContains "0"
        if has0 then do
          let r0 ← rosterData.pySubscript "0"
          let hasPlayers ← r0.pyContains "players"
          if hasPlayers then do
            let players ← r0.pySubscript "players"
            let pitems ← players.pyDictItems
            pitems.foldlM (fun acc2 kv => do
              if (kv.1 != "count") && kv.2.isObj then
                match kv.2.get? "player" with
                | some (J.arr (pa0 :: _)) =>
                  match pa0 with
                  | J.arr playerData =>
                    let info := playerData.foldl parse_roster_element {}
                    if (info.name.map J.truthy).getD false then
                      pure (acc2 ++ [info])
                    else pure acc2
                  | _ => pure acc2
                | _ => pure acc2
              else pure acc2) acc
          else pure acc
        else pure acc
      | none => pure acc
    | _ => pure acc) []

/-- The failures `ff_get_roster` can surface: the explicit `ToolError`
of line 901, or an exception propagating from the upstream call / the
parse. -/
inductive ToolFailure where
  | toolError (msg : List Char) : ToolFailure
  | upstreamErr (e : YahooError) : ToolFailure
  | pyErr (e : PyError) : ToolFailure
deriving Repr

/-- The dict returned by `ff_get_roster` on success (lines 892–899). -/
structure RosterResult where
  league_key : List Char
  team_key : J
  team_name : J
  draft_position : J
  draft_grade : J
  roster : List RosterPlayer
deriving Repr

/-- Embedding of `ff_get_roster` (lines 827–901).  `teamInfo` is the
result of `get_user_team_info(league_key)` (which returns `None` both
when no roster entry matches the authenticated user and when its own
upstream call raised, lines 279–282); `rosterApi` is the outcome of the
`team/{team_key}/roster` call made only when a team was found. -/
def ff_get_roster (league_key : List Char) (teamInfo : Option TeamInfo)
    (rosterApi : Except YahooError J) : Except ToolFailure RosterResult :=
  match teamInfo with
  | some ti =>
    match rosterApi with
    | Except.error e => Except.error (ToolFailure.upstreamErr e)
    | Except.ok data =>
      match parse_roster data with
      | Except.error e => Except.error (ToolFailure.pyErr e)
      | Except.ok roster =>
        Except.ok { league_key := league_key, team_key := ti.team_key,
                    team_name := ti.team_name, draft_position := ti.draft_position,
                    draft_grade := ti.draft_grade, roster := roster }
  | none =>
    Except.error (ToolFailure.toolError
      ("Could not find your team in league ".data ++ league_key))

/-! ## `ff_get_waiver_wire` (lines 1105–1136) -/

/-- Embedding of `ff_get_waiver_wire`.  Its first executed statement
(line 1120) is `league_key = arguments.get("league_key")`, and
`arguments` is bound nowhere — not a parameter (see
`waiverWireLocalNames`), not a module-scope name (see
`moduleTopLevelNames`), not a builtin — so every call raises
`NameError` for the name `arguments` before
`get_waiver_wire_players` (line 1125) and hence before any upstream
request.  The returned flag records whether an upstream fetch was
issued. -/
def ff_get_waiver_wire (league_key position sort : String) (count : Int) :
    Except PyError J × Bool :=
  (Except.error (PyError.nameError "arguments"), false)

/-- A string with a non-empty left part stays non-empty under append. -/
theorem append_ne_empty_left (p s : String) (hp : p ≠ "") : p ++ s ≠ "" := by
  intro h
  apply hp
  have hd := congrArg String.data h
  rw [String.data_append] at hd
  rcases List.append_eq_nil.mp hd with ⟨h1, _⟩
  cases p
  simp_all

/-- C4: `refresh_yahoo_token` never raises: for every credential
configuration, process state and token-endpoint behaviour (missing
credentials, transport exception, non-200 status, malformed body) it
returns a structured result whose `status` is `"success"` — then
carrying the new expiry — or `"error"` — then carrying a non-empty
message. -/
theorem refresh_token_never_raises (clientId clientSecret : Option String)
    (st : PState) (up : RefreshUpstream) :
    ((refresh_yahoo_token clientId clientSecret st up).1.status = "success" ∧
      (refresh_yahoo_token clientId clientSecret st up).1.expiresIn.isSome = true) ∨
    ((refresh_yahoo_token clientId clientSecret st up).1.status = "error" ∧
      (refresh_yahoo_token clientId clientSecret st up).1.message ≠ "") := by
  unfold refresh_yahoo_token
  repeat' (first | split | dsimp only [])
  all_goals first
    | (left; exact ⟨rfl, rfl⟩)
    | (right; refine ⟨rfl, ?_⟩; first | decide | exact append_ne_empty_left _ _ (by decide))

/-- C6: on a successful exchange (HTTP 200 whose body carries a string
`access_token`), `refresh_yahoo_token` sets the module-global
`YAHOO_ACCESS_TOKEN` and the `YAHOO_ACCESS_TOKEN` environment entry to
the newly issued token, and rewrites the stored `YAHOO_REFRESH_TOKEN`
if and only if the endpoint returned a rotated string `refresh_token`
different from the one sent; otherwise that entry is left unchanged. -/
theorem refresh_token_updates_credentials
    (clientId clientSecret : Option String) (st : PState)
    (tokenData : J) (bodyText : List Char) (rt tok : String)
    (hcid : strTruthy clientId = true) (hcs : strTruthy clientSecret = true)
    (hrt : st.envRefreshToken = some rt) (hrtNe : rt ≠ "")
    (htok : tokenData.get? "access_token" = some (J.str tok))
    (hobj : tokenData.isObj = true)
    (hrot : tokenData.get? "refresh_token" = none ∨
      ∃ r, tokenData.get? "refresh_token" = some (J.str r)) :
    ((refresh_yahoo_token clientId clientSecret st
        (RefreshUpstream.resp 200 tokenData bodyText)).2.globalAccessToken = J.str tok) ∧
    ((refresh_yahoo_token clientId clientSecret st
        (RefreshUpstream.resp 200 tokenData bodyText)).2.envAccessToken = some tok) ∧
    ((refresh_yahoo_token clientId clientSecret st
        (RefreshUpstream.resp 200 tokenData bodyText)).2.envRefreshToken =
      match tokenData.get? "refresh_token" with
      | some (J.str r) => if r = rt then st.envRefreshToken else some r
      | _ => st.envRefreshToken) := by
  have htr : strTruthy st.envRefreshToken = true := by
    rw [hrt]; simpa [strTruthy] using hrtNe
  unfold refresh_yahoo_token
  rw [if_neg (not_not_intro ⟨hcid, hcs, htr⟩)]
  try dsimp only
  rw [if_pos rfl, if_neg (not_not_intro hobj)]
  simp only [hrt, Option.getD_some, J.getD, htok]
  try dsimp only
  rcases hrot with hnone | ⟨r, hr⟩
  · simp only [hnone, Option.getD_none, jNeStr]
    rw [if_neg (by simp)]
    split <;> exact ⟨rfl, rfl, by simp [hnone]⟩
  · simp only [hr, Option.getD_some, jNeStr]
    by_cases hre : r = rt
    · subst hre
      rw [if_neg (by simp)]
      split <;> exact ⟨rfl, rfl, by simp [hr]⟩
    · rw [if_pos (by simp [hre])]
      split <;> exact ⟨rfl, rfl, by simp [hr, hre]⟩

/-- Witness for C6: a concrete 200 response rotating the refresh token. -/
theorem refresh_token_updates_credentials_witness :
    ((refresh_yahoo_token (some "cid") (some "csec")
        { globalAccessToken := J.none_, envAccessToken := some "stale",
          envRefreshToken := some "oldrt" }
        (RefreshUpstream.resp 200
          (J.obj [("access_token", J.str "newtok"), ("refresh_token", J.str "newrt"),
                  ("expires_in", J.num 3600)]) [])).2.globalAccessToken = J.str "newtok") ∧
    ((refresh_yahoo_token (some "cid") (some "csec")
        { globalAccessToken := J.none_, envAccessToken := some "stale",
          envRefreshToken := some "oldrt" }
        (RefreshUpstream.resp 200
          (J.obj [("access_token", J.str "newtok"), ("refresh_token", J.str "newrt"),
                  ("expires_in", J.num 3600)]) [])).2.envAccessToken = some "newtok") ∧
    ((refresh_yahoo_token (some "cid") (some "csec")
        { globalAccessToken := J.none_, envAccessToken := some "stale",
          envRefreshToken := some "oldrt" }
        (RefreshUpstream.resp 200
          (J.obj [("access_token", J.str "newtok"), ("refresh_token", J.str "newrt"),
                  ("expires_in", J.num 3600)]) [])).2.envRefreshToken = some "newrt") := by
  have h := refresh_token_updates_credentials (some "cid") (some "csec")
    { globalAccessToken := J.none_, envAccessToken := some "stale",
      envRefreshToken := some "oldrt" }
    (J.obj [("access_token", J.str "newtok"), ("refresh_token", J.str "newrt"),
            ("expires_in", J.num 3600)]) [] "oldrt" "newtok"
    (by decide) (by decide) rfl (by decide) rfl rfl
    (Or.inr ⟨"newrt", rfl⟩)
  exact ⟨h.1, h.2.1, by rw [h.2.2]; rfl⟩

/-- Selects credential-refresh attempts in a gateway trace. -/
def isRefreshEvent : Event → Bool
  | Event.refreshAttempt => true
  | _ => false
/-- A `retry_on_auth_fail=False` gateway call in closed form: a 401 is
handled by the generic error branch, never by a refresh. -/
theorem yahoo_api_call_false_eq (env : GatewayEnv) (endpoint : String)
    (useCache : Bool) (st : GwState) :
    yahoo_api_call env endpoint false useCache st =
    match (if useCache then J.lookup st.cache endpoint else none) with
    | some v => (Except.ok v, st, [Event.cacheHit endpoint])
    | none =>
      if (env.responses st.reqCount).status = 200 then
        if useCache then
          (Except.ok (env.responses st.reqCount).json,
           { cache := J.insertKey st.cache endpoint (env.responses st.reqCount).json,
             pstate := st.pstate, reqCount := st.reqCount + 1 },
           [Event.rateAcquire, Event.httpGet st.reqCount (env.responses st.reqCount).status,
            Event.cacheStore endpoint])
        else
          (Except.ok (env.responses st.reqCount).json,
           { cache := st.cache, pstate := st.pstate, reqCount := st.reqCount + 1 },
           [Event.rateAcquire, Event.httpGet st.reqCount (env.responses st.reqCount).status])
      else
        (Except.error (YahooError.upstream (env.responses st.reqCount).status
            ((env.responses st.reqCount).body.take 200)),
         { cache := st.cache, pstate := st.pstate, reqCount := st.reqCount + 1 },
         [Event.rateAcquire, Event.httpGet st.reqCount (env.responses st.reqCount).status]) := by
  unfold yahoo_api_call
  split
  · rfl
  · dsimp only
    split
    · split <;> rfl
    · rw [dif_neg (by simp)]

/-- A `retry_on_auth_fail=False` call never attempts a refresh. -/
theorem yahoo_api_call_false_no_refresh (env : GatewayEnv) (endpoint : String)
    (useCache : Bool) (st : GwState) :
    ((yahoo_api_call env endpoint false useCache st).2.2.countP isRefreshEvent) = 0 := by
  rw [yahoo_api_call_false_eq]
  split
  · rfl
  · split
    · split <;> rfl
    · rfl

/-- A gateway call with `use_cache=True` that misses the cache lands in
exactly one of five closed forms: first response 200; first response
neither 200 nor a retried 401; 401 with failing refresh; 401, refresh
succeeded, retry got 200; 401, refresh succeeded, retry failed. -/
theorem yahoo_api_call_miss_cases (env : GatewayEnv) (endpoint : String)
    (retry : Bool) (st : GwState)
    (hmiss : J.lookup st.cache endpoint = none) :
    ((env.responses st.reqCount).status = 200 ∧
      yahoo_api_call env endpoint retry true st = (Except.ok (env.responses st.reqCount).json,
        { cache := J.insertKey st.cache endpoint (env.responses st.reqCount).json,
          pstate := st.pstate, reqCount := st.reqCount + 1 },
        [Event.rateAcquire, Event.httpGet st.reqCount (env.responses st.reqCount).status,
         Event.cacheStore endpoint])) ∨
    ((env.responses st.reqCount).status ≠ 200 ∧
      ¬ ((env.responses st.reqCount).status = 401 ∧ retry = true) ∧
      yahoo_api_call env endpoint retry true st =
        (Except.error (YahooError.upstream (env.responses st.reqCount).status
            ((env.responses st.reqCount).body.take 200)),
         { cache := st.cache, pstate := st.pstate, reqCount := st.reqCount + 1 },
         [Event.rateAcquire, Event.httpGet st.reqCount (env.responses st.reqCount).status])) ∨
    ((env.responses st.reqCount).status = 401 ∧ retry = true ∧
      (refresh_yahoo_token env.clientId env.clientSecret st.pstate env.refreshUp).1.status ≠ "success" ∧
      yahoo_api_call env endpoint retry true st =
        (Except.error (YahooError.authRefreshFailed ((env.responses st.reqCount).body.take 200)),
         { cache := st.cache,
           pstate := (refresh_yahoo_token env.clientId env.clientSecret st.pstate env.refreshUp).2,
           reqCount := st.reqCount + 1 },
         [Event.rateAcquire, Event.httpGet st.reqCount (env.responses st.reqCount).status,
          Event.refreshAttempt])) ∨
    ((env.responses st.reqCount).status = 401 ∧ retry = true ∧
      (refresh_yahoo_token env.clientId env.clientSecret st.pstate env.refreshUp).1.status = "success" ∧
      (env.responses (st.reqCount + 1)).status = 200 ∧
      yahoo_api_call env endpoint retry true st =
        (Except.ok (env.responses (st.reqCount + 1)).json,
         { cache := J.insertKey st.cache endpoint (env.responses (st.reqCount + 1)).json,
           pstate := (refresh_yahoo_token env.clientId env.clientSecret st.pstate env.refreshUp).2,
           reqCount := st.reqCount + 2 },
         [Event.rateAcquire, Event.httpGet st.reqCount (env.responses st.reqCount).status,
          Event.refreshAttempt, Event.rateAcquire,
          Event.httpGet (st.reqCount + 1) (env.responses (st.reqCount + 1)).status,
          Event.cacheStore endpoint])) ∨
    ((env.responses st.reqCount).status = 401 ∧ retry = true ∧
      (refresh_yahoo_token env.clientId env.clientSecret st.pstate env.refreshUp).1.status = "success" ∧
      (env.responses (st.reqCount + 1)).status ≠ 200 ∧
      yahoo_api_call env endpoint retry true st =
        (Except.error (YahooError.upstream (env.responses (st.reqCount + 1)).status
            ((env.responses (st.reqCount + 1)).body.take 200)),
         { cache := st.cache,
           pstate := (refresh_yahoo_token env.clientId env.clientSecret st.pstate env.refreshUp).2,
           reqCount := st.reqCount + 2 },
         [Event.rateAcquire, Event.httpGet st.reqCount (env.responses st.reqCount).status,
          Event.refreshAttempt, Event.rateAcquire,
          Event.httpGet (st.reqCount + 1) (env.responses (st.reqCount + 1)).status])) := by
  unfold yahoo_api_call
  rw [if_pos rfl, hmiss]
  dsimp only
  by_cases h200 : (env.responses st.reqCount).status = 200
  · rw [if_pos h200]
    exact Or.inl ⟨h200, rfl⟩
  · rw [if_neg h200]
    by_cases h401 : (env.responses st.reqCount).status = 401 ∧ retry = true
    · rw [dif_pos h401]
      by_cases hsucc : (refresh_yahoo_token env.clientId env.clientSecret st.pstate
          env.refreshUp).1.status = "success"
      · rw [if_pos hsucc, yahoo_api_call_false_eq]
        dsimp only
        rw [if_pos rfl, hmiss]
        dsimp only
        by_cases h200b : (env.responses (st.reqCount + 1)).status = 200
        · rw [if_pos h200b]
          exact Or.inr (Or.inr (Or.inr (Or.inl ⟨h401.1, h401.2, hsucc, h200b, rfl⟩)))
        · rw [if_neg h200b]
          exact Or.inr (Or.inr (Or.inr (Or.inr ⟨h401.1, h401.2, hsucc, h200b, rfl⟩)))
      · rw [if_neg hsucc]
        exact Or.inr (Or.inr (Or.inl ⟨h401.1, h401.2, hsucc, rfl⟩))
    · rw [dif_neg h401]
      exact Or.inr (Or.inl ⟨h200, h401, rfl⟩)

/-- A cache hit with `use_cache=True` returns the cached payload at
once, leaving the state untouched. -/
theorem yahoo_api_call_cache_hit (env : GatewayEnv) (endpoint : String)
    (retry : Bool) (st : GwState) (v : J)
    (h : J.lookup st.cache endpoint = some v) :
    yahoo_api_call env endpoint retry true st =
      (Except.ok v, st, [Event.cacheHit endpoint]) := by
  unfold yahoo_api_call
  rw [if_pos rfl, h]

/-- C1: a single logical gateway call — entered with
`retry_on_auth_fail=True` — invokes the credential refresher at most
once regardless of upstream behaviour; and when the first response is
401, the refresh succeeds, and the retried request is answered 401
again, the call raises the generic upstream error (the retry runs with
`retry_on_auth_fail=False`) instead of refreshing a second time. -/
theorem yahoo_call_refresh_at_most_once (env : GatewayEnv) (endpoint : String)
    (useCache : Bool) (st : GwState) :
    ((yahoo_api_call env endpoint true useCache st).2.2.countP isRefreshEvent ≤ 1) ∧
    ((if useCache then J.lookup st.cache endpoint else none) = none →
     (env.responses st.reqCount).status = 401 →
     (refresh_yahoo_token env.clientId env.clientSecret st.pstate
        env.refreshUp).1.status = "success" →
     (env.responses (st.reqCount + 1)).status = 401 →
     (yahoo_api_call env endpoint true useCache st).1 =
       Except.error (YahooError.upstream 401
         ((env.responses (st.reqCount + 1)).body.take 200))) := by
  constructor
  · unfold yahoo_api_call
    split
    · simp [isRefreshEvent]
    · dsimp only
      split
      · split <;> simp [isRefreshEvent]
      · split
        · split
          · simp [isRefreshEvent, List.countP_append, yahoo_api_call_false_no_refresh]
          · simp [isRefreshEvent]
        · simp [isRefreshEvent]
  · intro hmiss h401a hsucc h401b
    cases useCache with
    | true =>
      have hl : J.lookup st.cache endpoint = none := by simpa using hmiss
      rcases yahoo_api_call_miss_cases env endpoint true st hl with
        ⟨h1, _⟩ | ⟨_, h2, _⟩ | ⟨_, _, h3, _⟩ | ⟨_, _, _, h4, _⟩ | ⟨_, _, _, _, he⟩
      · omega
      · exact absurd ⟨h401a, rfl⟩ h2
      · exact absurd hsucc h3
      · omega
      · rw [he, h401b]
    | false =>
      unfold yahoo_api_call
      rw [hmiss]
      dsimp only
      rw [if_neg (by omega), dif_pos ⟨h401a, rfl⟩, if_pos hsucc, yahoo_api_call_false_eq]
      dsimp only
      rw [show (if false = true then J.lookup st.cache endpoint else none) =
        (none : Option J) from rfl]
      dsimp only
      rw [if_neg (by omega), h401b]

/-- Witness machinery: an upstream that always answers 401 with an
empty body, over a refresh endpoint that succeeds without rotating. -/
def wEnv401 : GatewayEnv :=
  { responses := fun _ => { status := 401, json := J.none_, body := [] },
    refreshUp := RefreshUpstream.resp 200
      (J.obj [("access_token", J.str "tok2"), ("expires_in", J.num 3600)]) [],
    clientId := some "cid", clientSecret := some "csec" }
/-- Witness process state with full credentials. -/
def wPState : PState :=
  { globalAccessToken := J.str "tok", envAccessToken := some "tok",
    envRefreshToken := some "rtok" }
/-- Witness gateway state with an empty cache. -/
def wStEmpty : GwState := { cache := [], pstate := wPState, reqCount := 0 }
/-- Witness gateway state whose cache holds the requested endpoint. -/
def wStHit : GwState := { cache := [("ep", J.str "cached")], pstate := wPState, reqCount := 0 }
/-- Witness for C1: concretely, a 401, a successful refresh, then a
second 401 raise the upstream error instead of refreshing again. -/
theorem yahoo_call_refresh_at_most_once_witness :
    (yahoo_api_call wEnv401 "ep" true true wStEmpty).1 =
      Except.error (YahooError.upstream 401 []) :=
  (yahoo_call_refresh_at_most_once wEnv401 "ep" true wStEmpty).2 rfl rfl rfl rfl

/-- C2: with `use_cache=True`, a cache hit returns the entry at once —
no rate-limiter permit, no upstream request; on a miss the permit is
acquired before the request is issued; and the payload is stored in the
cache exactly when the fetch succeeded (HTTP 200), errors leaving the
cache unchanged. -/
theorem yahoo_call_cache_discipline (env : GatewayEnv) (endpoint : String)
    (retry : Bool) (st : GwState) :
    (∀ v, J.lookup st.cache endpoint = some v →
      yahoo_api_call env endpoint retry true st =
        (Except.ok v, st, [Event.cacheHit endpoint]) ∧
      Event.rateAcquire ∉ (yahoo_api_call env endpoint retry true st).2.2 ∧
      (∀ n s, Event.httpGet n s ∉ (yahoo_api_call env endpoint retry true st).2.2)) ∧
    (J.lookup st.cache endpoint = none →
      (∃ rest, (yahoo_api_call env endpoint retry true st).2.2 =
        Event.rateAcquire ::
        Event.httpGet st.reqCount (env.responses st.reqCount).status :: rest) ∧
      ((∃ j, (yahoo_api_call env endpoint retry true st).1 = Except.ok j) ↔
        Event.cacheStore endpoint ∈ (yahoo_api_call env endpoint retry true st).2.2) ∧
      (∀ j, (yahoo_api_call env endpoint retry true st).1 = Except.ok j →
        (yahoo_api_call env endpoint retry true st).2.1.cache =
          J.insertKey st.cache endpoint j) ∧
      (∀ e, (yahoo_api_call env endpoint retry true st).1 = Except.error e →
        (yahoo_api_call env endpoint retry true st).2.1.cache = st.cache)) := by
  constructor
  · intro v hv
    have he := yahoo_api_call_cache_hit env endpoint retry st v hv
    refine ⟨he, ?_, ?_⟩
    · rw [he]; simp
    · intro n s; rw [he]; simp
  · intro hmiss
    rcases yahoo_api_call_miss_cases env endpoint retry st hmiss with
      ⟨h1, he⟩ | ⟨h1, h2, he⟩ | ⟨h1, h2, h3, he⟩ | ⟨h1, h2, h3, h4, he⟩ | ⟨h1, h2, h3, h4, he⟩
    · refine ⟨⟨_, by rw [he]⟩, by rw [he]; simp, ?_, ?_⟩
      · intro j hj
        rw [he] at hj ⊢
        simp only [Except.ok.injEq] at hj
        subst hj
        rfl
      · intro e hee
        rw [he] at hee
        simp at hee
    · refine ⟨⟨_, by rw [he]⟩, by rw [he]; simp, ?_, ?_⟩
      · intro j hj
        rw [he] at hj
        simp at hj
      · intro e hee
        rw [he]
    · refine ⟨⟨_, by rw [he]⟩, by rw [he]; simp, ?_, ?_⟩
      · intro j hj
        rw [he] at hj
        simp at hj
      · intro e hee
        rw [he]
    · refine ⟨⟨_, by rw [he]⟩, by rw [he]; simp, ?_, ?_⟩
      · intro j hj
        rw [he] at hj ⊢
        simp only [Except.ok.injEq] at hj
        subst hj
        rfl
      · intro e hee
        rw [he] at hee
        simp at hee
    · refine ⟨⟨_, by rw [he]⟩, by rw [he]; simp, ?_, ?_⟩
      · intro j hj
        rw [he] at hj
        simp at hj
      · intro e hee
        rw [he]

/-- Witness for C2: a concrete cache hit is served as-is, and a
concrete miss acquires the permit first, fetches and stores. -/
theorem yahoo_call_cache_discipline_witness :
    yahoo_api_call wEnv401 "ep" true true wStHit =
      (Except.ok (J.str "cached"), wStHit, [Event.cacheHit "ep"]) :=
  ((yahoo_call_cache_discipline wEnv401 "ep" true wStHit).1 (J.str "cached") rfl).1

/-- Witness upstream answering 500 with a long body. -/
def wEnv500 : GatewayEnv :=
  { responses := fun _ =>
      { status := 500, json := J.none_, body := "Internal Server Error".data },
    refreshUp := RefreshUpstream.exn "unreachable",
    clientId := none, clientSecret := none }
/-- C7: a response whose status is neither 200 nor 401 — and a 401 when
the retry is disabled — makes the gateway raise the upstream failure
carrying the numeric status code and the body truncated to at most 200
characters, and nothing is stored in the cache. -/
theorem yahoo_call_upstream_error (env : GatewayEnv) (endpoint : String)
    (retry useCache : Bool) (st : GwState)
    (hmiss : (if useCache then J.lookup st.cache endpoint else none) = none)
    (hs200 : (env.responses st.reqCount).status ≠ 200)
    (hs401 : (env.responses st.reqCount).status = 401 → retry = false) :
    (yahoo_api_call env endpoint retry useCache st).1 =
      Except.error (YahooError.upstream (env.responses st.reqCount).status
        ((env.responses st.reqCount).body.take 200)) ∧
    (yahoo_api_call env endpoint retry useCache st).2.1.cache = st.cache ∧
    ((env.responses st.reqCount).body.take 200).length ≤ 200 ∧
    Event.cacheStore endpoint ∉ (yahoo_api_call env endpoint retry useCache st).2.2 := by
  have hd : ¬ ((env.responses st.reqCount).status = 401 ∧ retry = true) := by
    rintro ⟨ha, hb⟩
    rw [hs401 ha] at hb
    cases hb
  unfold yahoo_api_call
  rw [hmiss]
  dsimp only
  rw [if_neg hs200, dif_neg hd]
  refine ⟨rfl, rfl, ?_, by simp⟩
  rw [List.length_take]
  exact Nat.min_le_left _ _

/-- Witness for C7: a concrete 500 with retry disabled raises the
upstream error with the truncated body and an unchanged cache. -/
theorem yahoo_call_upstream_error_witness :
    (yahoo_api_call wEnv500 "ep" false true wStEmpty).1 =
      Except.error (YahooError.upstream 500 ("Internal Server Error".data.take 200)) ∧
    (yahoo_api_call wEnv500 "ep" false true wStEmpty).2.1.cache = [] ∧
    ("Internal Server Error".data.take 200).length ≤ 200 ∧
    Event.cacheStore "ep" ∉ (yahoo_api_call wEnv500 "ep" false true wStEmpty).2.2 :=
  yahoo_call_upstream_error wEnv500 "ep" false true wStEmpty rfl (by decide) (by simp)

/-- C3 (code bug): `ff_get_standings` can never return standings —
real or placeholder.  Line 665 binds the upstream response to the
misspelled name `ata`; line 668 reads `data`, which resolves neither in
the function local scope nor at module scope, so every call whose
upstream fetch succeeds raises `NameError` for the name `data`
before the structural parses, the deep scan, and the placeholder
reconstruction from team metadata (lines 667–816) can run. -/
theorem ff_get_standings_always_name_error (payload : J) :
    ff_get_standings (Except.ok payload) =
      Except.error (Sum.inr (PyError.nameError "data")) ∧
    resolvesName standingsLocalNames "data" = false :=
  ⟨rfl, rfl⟩

/-- A payload on which the waiver/draft player parse raises: the
player `name` field is a plain string, so `element["name"]["full"]`
is a `TypeError` (string indices must be integers). -/
def badPlayersPayload : J :=
  J.obj [("fantasy_content",
    J.obj [("league",
      J.arr [J.none_,
        J.obj [("players",
          J.obj [("0",
            J.obj [("player", J.arr [J.arr [J.obj [("name", J.str "Bob")]]])])])]])])]
/-- A well-formed payload containing zero players. -/
def emptyPlayersPayload : J :=
  J.obj [("fantasy_content",
    J.obj [("league",
      J.arr [J.none_, J.obj [("players", J.obj [])]])])]
/-- C5 counterexample: on a concrete payload whose parse raises,
`get_waiver_wire_players` and `get_draft_rankings` return the bare `[]`
that a genuinely empty payload also produces — no
`InsufficientDataError`, no partial-result marker, nothing a caller
could branch on. -/
theorem parse_failure_counterexample :
    parse_waiver_players badPlayersPayload = Except.error PyError.typeError ∧
    get_waiver_wire_players (Except.ok badPlayersPayload) = [] ∧
    get_waiver_wire_players (Except.ok badPlayersPayload) =
      get_waiver_wire_players (Except.ok emptyPlayersPayload) ∧
    parse_draft_rankings badPlayersPayload = Except.error PyError.typeError ∧
    get_draft_rankings (Except.ok badPlayersPayload) = [] ∧
    get_draft_rankings (Except.ok badPlayersPayload) =
      get_draft_rankings (Except.ok emptyPlayersPayload) := by
  refine ⟨?_, ?_, ?_, ?_, ?_, ?_⟩ <;> with_unfolding_all rfl

/-- C5 (amended): when a parse of an upstream payload fails inside
`get_waiver_wire_players` or `get_draft_rankings`, the exception is
caught by the blanket `except` and the empty list is returned — the
caller receives exactly what a zero-match payload yields, with no
explicit failure signal. -/
theorem parse_failure_silently_empty (d1 d2 d3 d4 : J) (e1 e2 : PyError)
    (h1 : parse_waiver_players d1 = Except.error e1)
    (h2 : parse_waiver_players d2 = Except.ok [])
    (h3 : parse_draft_rankings d3 = Except.error e2)
    (h4 : parse_draft_rankings d4 = Except.ok []) :
    get_waiver_wire_players (Except.ok d1) = [] ∧
    get_waiver_wire_players (Except.ok d1) = get_waiver_wire_players (Except.ok d2) ∧
    get_draft_rankings (Except.ok d3) = [] ∧
    get_draft_rankings (Except.ok d3) = get_draft_rankings (Except.ok d4) := by
  simp [get_waiver_wire_players, get_draft_rankings, h1, h2, h3, h4]

/-- Witness for the amended C5 at the concrete payloads. -/
theorem parse_failure_silently_empty_witness :
    get_waiver_wire_players (Except.ok badPlayersPayload) = [] ∧
    get_waiver_wire_players (Except.ok badPlayersPayload) =
      get_waiver_wire_players (Except.ok emptyPlayersPayload) ∧
    get_draft_rankings (Except.ok badPlayersPayload) = [] ∧
    get_draft_rankings (Except.ok badPlayersPayload) =
      get_draft_rankings (Except.ok emptyPlayersPayload) :=
  parse_failure_silently_empty badPlayersPayload emptyPlayersPayload
    badPlayersPayload emptyPlayersPayload PyError.typeError PyError.typeError
    rfl rfl (by with_unfolding_all rfl) (by with_unfolding_all rfl)

/-- C8: when no roster entry matches the authenticated user
(`get_user_team_info` yields nothing), `ff_get_roster` fails with the
`ToolError` of line 901 whose message names the requested league — it
does not produce a partial or empty roster result. -/
theorem ff_get_roster_missing_team (league_key : List Char)
    (rosterApi : Except YahooError J) :
    ff_get_roster league_key none rosterApi =
      Except.error (ToolFailure.toolError
        ("Could not find your team in league ".data ++ league_key)) ∧
    league_key <:+ ("Could not find your team in league ".data ++ league_key) :=
  ⟨rfl, List.suffix_append _ _⟩

/-- C9: `ff_get_waiver_wire` never returns a result: for every
combination of arguments its first executed statement reads the name
`arguments`, which is bound nowhere in scope, so it raises `NameError`
before `get_waiver_wire_players` and hence before any upstream request
(the flag records that no fetch was issued). -/
theorem ff_get_waiver_wire_always_name_error
    (league_key position sort : String) (count : Int) :
    ff_get_waiver_wire league_key position sort count =
      (Except.error (PyError.nameError "arguments"), false) ∧
    resolvesName waiverWireLocalNames "arguments" = false :=
  ⟨rfl, rfl⟩

/-- C10: `discover_leagues` memoizes only non-empty results: a
non-empty `LEAGUES_CACHE` is returned as-is without an upstream fetch;
an empty cache triggers a fetch whose parsed result — even when empty —
is assigned to the cache; and because an empty dict is falsy, an empty
result leaves the next call fetching again. -/
theorem discover_leagues_memoizes_non_empty (cache : LeaguesAcc)
    (upstream : Except YahooError J) :
    (cache ≠ [] → discover_leagues cache upstream = (Except.ok cache, cache, false)) ∧
    (cache = [] → (discover_leagues cache upstream).2.2 = true ∧
      ∀ d, upstream = Except.ok d →
        discover_leagues cache upstream =
          (Except.ok (discover_leagues_parse d), discover_leagues_parse d, true)) ∧
    (∀ d up2, cache = [] → upstream = Except.ok d → discover_leagues_parse d = [] →
      ((discover_leagues cache upstream).2.1 = [] ∧
       (discover_leagues (discover_leagues cache upstream).2.1 up2).2.2 = true)) := by
  refine ⟨?_, ?_, ?_⟩
  · intro h
    cases cache with
    | nil => exact absurd rfl h
    | cons a l => rfl
  · intro h
    subst h
    constructor
    · cases upstream with
      | error e => rfl
      | ok d => rfl
    · intro d hup
      subst hup
      rfl
  · intro d up2 hc hup hparse
    subst hc
    subst hup
    refine ⟨hparse, ?_⟩
    rw [show (discover_leagues [] (Except.ok d)).2.1 = discover_leagues_parse d from rfl,
      hparse]
    cases up2 with
    | error e => rfl
    | ok d2 => rfl

/-- A league record for the memoization witness. -/
def wLeagueInfo : LeagueInfo := mkLeagueInfo (J.obj [("league_key", J.str "461.l.1")])

/-! # Theorems -/

/-- Witness for C10: a concrete non-empty cache short-circuits, and a
concrete empty parse result is not treated as cached. -/
theorem discover_leagues_memoizes_non_empty_witness :
    discover_leagues [(J.str "461.l.1", wLeagueInfo)] (Except.ok J.none_) =
      (Except.ok [(J.str "461.l.1", wLeagueInfo)],
       [(J.str "461.l.1", wLeagueInfo)], false) ∧
    (discover_leagues [] (Except.ok J.none_)).2.1 = [] ∧
    (discover_leagues (discover_leagues [] (Except.ok J.none_)).2.1
      (Except.ok J.none_)).2.2 = true := by
  refine ⟨(discover_leagues_memoizes_non_empty _ _).1 (by simp), ?_, ?_⟩
  · exact ((discover_leagues_memoizes_non_empty [] (Except.ok J.none_)).2.2
      J.none_ (Except.ok J.none_) rfl rfl rfl).1
  · exact ((discover_leagues_memoizes_non_empty [] (Except.ok J.none_)).2.2
      J.none_ (Except.ok J.none_) rfl rfl rfl).2

end FF